import Mathlib

/-!
Verification of the global-ref crate: two single-slot cells, GlobalRef and
GlobalMut, each wrapping a lazily created mutex-guarded optional address slot
(OnceCell<Mutex<Option<usize>>> in the source).  The state of one cell is
modelled by `CellState`; memories mapping addresses to stored values model the
pointees, so dereferencing a stored address is a lookup in the memory.
Every operation is translated from src/lib.rs.  Read operations return the
cell state after the call alongside their result, so that frame and
lazy-initialization properties can be stated; they mirror the source, which
performs no slot write on any read path.
-/

/-- State of one cell: the OnceCell is untouched (uninit), or it has been
created and the guarded slot is empty (None), or the slot holds the numeric
address of the registered value. -/
inductive CellState where
  | uninit : CellState
  | empty : CellState
  | registered : Nat → CellState
deriving DecidableEq, Repr

/-- The lazy OnceCell of the cell has been created, i.e. the cell is past the
pre-first-access state. -/
def CellState.isInit : CellState → Bool
  | CellState.uninit => false
  | CellState.empty => true
  | CellState.registered _ => true

/-- Writing value v at address a of a memory: models an in-place mutation of a
pointee performed through a mutable reference to it. -/
def writeMem {T : Type} (mem : Nat → Option T) (a : Nat) (v : T) :
    Nat → Option T :=
  fun n => if n = a then some v else mem n

namespace GlobalRef

/-- Models self.inner.get_or_init with the closure producing None.into(): the
first access creates the mutex-guarded slot holding None; on every later
access the existing state is returned unchanged. -/
def get_or_init (s : CellState) : CellState :=
  match s with
  | CellState.uninit => CellState.empty
  | CellState.empty => CellState.empty
  | CellState.registered a => CellState.registered a

/-- Models GlobalRef::set: after get_or_init, the slot contents are replaced
with the address of item, whatever the slot held before.  The operation is
total: it signals no error in any state. -/
def set (s : CellState) (addr : Nat) : CellState :=
  match get_or_init s with
  | CellState.uninit => CellState.registered addr
  | CellState.empty => CellState.registered addr
  | CellState.registered _ => CellState.registered addr

/-- Models GlobalRef::clear: after get_or_init, the slot is overwritten with
None, whatever it held before. -/
def clear (s : CellState) : CellState :=
  match get_or_init s with
  | CellState.uninit => CellState.empty
  | CellState.empty => CellState.empty
  | CellState.registered _ => CellState.empty

/-- Models GlobalRef::try_get.  In the source, self.inner.get() returns None
without creating the OnceCell when it is untouched and the question-mark
operator then yields None; otherwise the slot is read under the lock and the
stored address is reinterpreted, as_ref giving None exactly for the null
address.  The pair carries the cell state after the call (no path writes the
slot or creates the OnceCell) and the value observed through the memory. -/
def try_get {T : Type} (s : CellState) (mem : Nat → Option T) :
    CellState × Option T :=
  match s with
  | CellState.uninit => (CellState.uninit, none)
  | CellState.empty => (CellState.empty, none)
  | CellState.registered p =>
      (CellState.registered p, if p = 0 then none else mem p)

/-- Models GlobalRef::get: try_get followed by expect, the panic of expect
rendered as an Except.error carrying the source's message. -/
def get {T : Type} (s : CellState) (mem : Nat → Option T) :
    CellState × Except String T :=
  match try_get s mem with
  | (s1, some v) => (s1, Except.ok v)
  | (s1, none) => (s1, Except.error "Call set() before calling get()!")

/-- Models GlobalRef::with: set the item's address, run the closure, then
clear and return the closure's result.  The closure is given by its outcome;
Except.error models a panic, which unwinds out of with before the clear
statement runs (the source installs no guard). -/
def with_ {R : Type} (s : CellState) (addr : Nat) (body : Except String R) :
    CellState × Except String R :=
  match body with
  | Except.ok r => (clear (set s addr), Except.ok r)
  | Except.error e => (set s addr, Except.error e)

/-- Models the Debug impl for GlobalRef: debug_tuple with name GlobalRef and
no fields; the cell state is never inspected. -/
def debug_fmt (_ : CellState) : String := "GlobalRef"

end GlobalRef

namespace GlobalMut

/-- Models self.inner.get_or_init for GlobalMut, identical to the shared
variant: first access creates the slot holding None. -/
def get_or_init (s : CellState) : CellState :=
  match s with
  | CellState.uninit => CellState.empty
  | CellState.empty => CellState.empty
  | CellState.registered a => CellState.registered a

/-- Models GlobalMut::set: after get_or_init, the slot contents are replaced
with the address of the mutable reference.  Total, no error in any state. -/
def set (s : CellState) (addr : Nat) : CellState :=
  match get_or_init s with
  | CellState.uninit => CellState.registered addr
  | CellState.empty => CellState.registered addr
  | CellState.registered _ => CellState.registered addr

/-- Models GlobalMut::clear: after get_or_init, the slot is set to None. -/
def clear (s : CellState) : CellState :=
  match get_or_init s with
  | CellState.uninit => CellState.empty
  | CellState.empty => CellState.empty
  | CellState.registered _ => CellState.empty

/-- Models GlobalMut::try_get: same shape as the shared variant, reading the
pointee through the memory; no path writes the slot or creates the OnceCell. -/
def try_get {T : Type} (s : CellState) (mem : Nat → Option T) :
    CellState × Option T :=
  match s with
  | CellState.uninit => (CellState.uninit, none)
  | CellState.empty => (CellState.empty, none)
  | CellState.registered p =>
      (CellState.registered p, if p = 0 then none else mem p)

/-- Models GlobalMut::get: try_get followed by expect, the panic rendered as
an Except.error carrying the source's message. -/
def get {T : Type} (s : CellState) (mem : Nat → Option T) :
    CellState × Except String T :=
  match try_get s mem with
  | (s1, some v) => (s1, Except.ok v)
  | (s1, none) => (s1, Except.error "Call set() before calling get()!")

/-- Models GlobalMut::try_get_mut: returns the registered address as the
mutable handle into the memory (as_mut yields None exactly for the null
address); no path writes the slot or creates the OnceCell. -/
def try_get_mut (s : CellState) : CellState × Option Nat :=
  match s with
  | CellState.uninit => (CellState.uninit, none)
  | CellState.empty => (CellState.empty, none)
  | CellState.registered p =>
      (CellState.registered p, if p = 0 then none else some p)

/-- Models GlobalMut::get_mut: try_get_mut followed by expect, the panic
rendered as an Except.error carrying the source's message. -/
def get_mut (s : CellState) : CellState × Except String Nat :=
  match try_get_mut s with
  | (s1, some p) => (s1, Except.ok p)
  | (s1, none) => (s1, Except.error "Call set() before calling get_mut()!")

/-- Models GlobalMut::with: set the address, run the closure, then clear and
return the closure's result; a panic (Except.error) unwinds before the clear
statement runs. -/
def with_ {R : Type} (s : CellState) (addr : Nat) (body : Except String R) :
    CellState × Except String R :=
  match body with
  | Except.ok r => (clear (set s addr), Except.ok r)
  | Except.error e => (set s addr, Except.error e)

/-- Models the Debug impl for GlobalMut: debug_tuple with name GlobalMut and
no fields; the cell state is never inspected. -/
def debug_fmt (_ : CellState) : String := "GlobalMut"

end GlobalMut

/-- C1 counterexample: running with on an Empty shared cell, registering
address 1, with a body that panics, leaves the cell Registered at 1 — not
Empty as the claim requires for every exit path. -/
theorem c1_with_panic_counterexample :
    (GlobalRef.with_ CellState.empty 1
        (Except.error "boom" : Except String Nat)).1 = CellState.registered 1
      ∧ CellState.registered 1 ≠ CellState.empty := by
  exact ⟨rfl, by decide⟩

/-- C1 (amended): for every cell, item address and body, with leaves the cell
Empty when the body returns normally; when the body panics, the clear is
skipped (no guard in the source) and the cell remains Registered at the
item's address.  Holds for both the shared and the exclusive variant. -/
theorem c1_with_clear_amended {R : Type} (s t : CellState) (a b : Nat)
    (r : R) (e : String) :
    (GlobalRef.with_ s a (Except.ok r)).1 = CellState.empty
      ∧ (GlobalRef.with_ s a (Except.error e : Except String R)).1
          = CellState.registered a
      ∧ (GlobalMut.with_ t b (Except.ok r)).1 = CellState.empty
      ∧ (GlobalMut.with_ t b (Except.error e : Except String R)).1
          = CellState.registered b := by
  cases s <;> cases t <;>
    simp [GlobalRef.with_, GlobalRef.set, GlobalRef.clear, GlobalRef.get_or_init,
      GlobalMut.with_, GlobalMut.set, GlobalMut.clear, GlobalMut.get_or_init]

/-- C2: from any cell state, after set of the address of a live value v on the
shared cell, try_get observes v and get returns v. -/
theorem c2_set_then_get {T : Type} (s : CellState) (a : Nat) (v : T)
    (mem : Nat → Option T) (ha : a ≠ 0) (hm : mem a = some v) :
    (GlobalRef.try_get (GlobalRef.set s a) mem).2 = some v
      ∧ (GlobalRef.get (GlobalRef.set s a) mem).2 = Except.ok v := by
  cases s <;>
    simp [GlobalRef.set, GlobalRef.get_or_init, GlobalRef.try_get,
      GlobalRef.get, ha, hm]

/-- C2 witness: registering the integer -1 at address 1 makes try_get return
some (-1) and get return -1. -/
theorem c2_set_then_get_witness :
    (GlobalRef.try_get (GlobalRef.set CellState.uninit 1)
        (fun n => if n = 1 then some (-1 : Int) else none)).2 = some (-1 : Int)
      ∧ (GlobalRef.get (GlobalRef.set CellState.uninit 1)
            (fun n => if n = 1 then some (-1 : Int) else none)).2
          = Except.ok (-1 : Int) :=
  c2_set_then_get CellState.uninit 1 (-1)
    (fun n => if n = 1 then some (-1 : Int) else none) (by decide) rfl

/-- C3: after clear on either variant, try_get (and try_get_mut on the
exclusive variant) returns none, whatever the prior state was; clear is
idempotent on both variants. -/
theorem c3_clear_absence {T U : Type} (s t : CellState)
    (mem : Nat → Option T) (mem2 : Nat → Option U) :
    (GlobalRef.try_get (GlobalRef.clear s) mem).2 = none
      ∧ (GlobalMut.try_get (GlobalMut.clear t) mem2).2 = none
      ∧ (GlobalMut.try_get_mut (GlobalMut.clear t)).2 = none
      ∧ GlobalRef.clear (GlobalRef.clear s) = GlobalRef.clear s
      ∧ GlobalMut.clear (GlobalMut.clear t) = GlobalMut.clear t := by
  cases s <;> cases t <;>
    simp [GlobalRef.clear, GlobalRef.get_or_init, GlobalRef.try_get,
      GlobalMut.clear, GlobalMut.get_or_init, GlobalMut.try_get,
      GlobalMut.try_get_mut]

/-- C4: with on a normally returning body is exactly set, then the body, then
clear, and it returns the body's value: set records the item's address in the
slot, the whole call equals clear after set paired with the body's result,
that final state is Empty, and the returned value is the body's.  Both
variants. -/
theorem c4_with_normal_steps {R : Type} (s t : CellState) (a b : Nat)
    (r : R) :
    GlobalRef.set s a = CellState.registered a
      ∧ GlobalRef.with_ s a (Except.ok r)
          = (GlobalRef.clear (GlobalRef.set s a), Except.ok r)
      ∧ GlobalRef.clear (GlobalRef.set s a) = CellState.empty
      ∧ (GlobalRef.with_ s a (Except.ok r)).2 = Except.ok r
      ∧ GlobalMut.set t b = CellState.registered b
      ∧ GlobalMut.with_ t b (Except.ok r)
          = (GlobalMut.clear (GlobalMut.set t b), Except.ok r)
      ∧ GlobalMut.clear (GlobalMut.set t b) = CellState.empty
      ∧ (GlobalMut.with_ t b (Except.ok r)).2 = Except.ok r := by
  cases s <;> cases t <;>
    simp [GlobalRef.with_, GlobalRef.set, GlobalRef.clear, GlobalRef.get_or_init,
      GlobalMut.with_, GlobalMut.set, GlobalMut.clear, GlobalMut.get_or_init]

/-- C5: a second set without an intervening clear is total on both variants
(set never signals an error: it is a plain state function) and the second
address overwrites the first, so subsequent reads observe the value stored at
the last address. -/
theorem c5_double_set_last_wins {T : Type} (s t : CellState) (a b : Nat)
    (w : T) (mem : Nat → Option T) (hb : b ≠ 0) (hm : mem b = some w) :
    GlobalRef.set (GlobalRef.set s a) b = CellState.registered b
      ∧ GlobalMut.set (GlobalMut.set t a) b = CellState.registered b
      ∧ (GlobalRef.try_get (GlobalRef.set (GlobalRef.set s a) b) mem).2
          = some w
      ∧ (GlobalMut.try_get (GlobalMut.set (GlobalMut.set t a) b) mem).2
          = some w := by
  cases s <;> cases t <;>
    simp [GlobalRef.set, GlobalRef.get_or_init, GlobalRef.try_get,
      GlobalMut.set, GlobalMut.get_or_init, GlobalMut.try_get, hb, hm]

/-- C5 witness: setting address 1 then address 2, where address 2 stores 7,
leaves both cells registered at 2 and reads give 7. -/
theorem c5_double_set_last_wins_witness :
    GlobalRef.set (GlobalRef.set CellState.uninit 1) 2 = CellState.registered 2
      ∧ GlobalMut.set (GlobalMut.set CellState.uninit 1) 2
          = CellState.registered 2
      ∧ (GlobalRef.try_get (GlobalRef.set (GlobalRef.set CellState.uninit 1) 2)
            (fun n => if n = 2 then some (7 : Int) else none)).2 = some (7 : Int)
      ∧ (GlobalMut.try_get (GlobalMut.set (GlobalMut.set CellState.uninit 1) 2)
            (fun n => if n = 2 then some (7 : Int) else none)).2
          = some (7 : Int) :=
  c5_double_set_last_wins CellState.uninit CellState.uninit 1 2 (7 : Int)
    (fun n => if n = 2 then some (7 : Int) else none) (by decide) rfl

/-- C6: on a cell whose OnceCell is untouched or whose slot is Empty, the
failing accessors get and get_mut produce the source's descriptive
unregistered-access messages, while the try accessors return none. -/
theorem c6_unregistered_access {T : Type} (s : CellState)
    (mem : Nat → Option T)
    (h : s = CellState.uninit ∨ s = CellState.empty) :
    (GlobalRef.get s mem).2
        = Except.error "Call set() before calling get()!"
      ∧ (GlobalRef.try_get s mem).2 = none
      ∧ (GlobalMut.get s mem).2
          = Except.error "Call set() before calling get()!"
      ∧ (GlobalMut.get_mut s).2
          = Except.error "Call set() before calling get_mut()!"
      ∧ (GlobalMut.try_get s mem).2 = none
      ∧ (GlobalMut.try_get_mut s).2 = none := by
  rcases h with h | h <;> subst h <;>
    simp [GlobalRef.get, GlobalRef.try_get, GlobalMut.get, GlobalMut.try_get,
      GlobalMut.get_mut, GlobalMut.try_get_mut]

/-- C6 witness: on a freshly declared cell (OnceCell untouched), get fails
with the unregistered message and try_get returns none. -/
theorem c6_unregistered_access_witness :
    (GlobalRef.get CellState.uninit (fun _ => (none : Option Int))).2
        = Except.error "Call set() before calling get()!"
      ∧ (GlobalRef.try_get CellState.uninit (fun _ => (none : Option Int))).2
          = none
      ∧ (GlobalMut.get CellState.uninit (fun _ => (none : Option Int))).2
          = Except.error "Call set() before calling get()!"
      ∧ (GlobalMut.get_mut CellState.uninit).2
          = Except.error "Call set() before calling get_mut()!"
      ∧ (GlobalMut.try_get CellState.uninit (fun _ => (none : Option Int))).2
          = none
      ∧ (GlobalMut.try_get_mut CellState.uninit).2 = none :=
  c6_unregistered_access CellState.uninit (fun _ => (none : Option Int))
    (Or.inl rfl)

/-- C7: on the exclusive cell, after set of the address of a live value v,
try_get_mut (and get_mut) return a handle to exactly that storage, try_get
reads v, and after an in-place write of w through the handle a subsequent
try_get and get observe w. -/
theorem c7_mutation_observed {T : Type} (s : CellState) (a : Nat) (v w : T)
    (mem : Nat → Option T) (ha : a ≠ 0) (hm : mem a = some v) :
    (GlobalMut.try_get_mut (GlobalMut.set s a)).2 = some a
      ∧ (GlobalMut.get_mut (GlobalMut.set s a)).2 = Except.ok a
      ∧ (GlobalMut.try_get (GlobalMut.set s a) mem).2 = some v
      ∧ (GlobalMut.try_get (GlobalMut.set s a) (writeMem mem a w)).2 = some w
      ∧ (GlobalMut.get (GlobalMut.set s a) (writeMem mem a w)).2
          = Except.ok w := by
  cases s <;>
    simp [GlobalMut.set, GlobalMut.get_or_init, GlobalMut.try_get,
      GlobalMut.get, GlobalMut.try_get_mut, GlobalMut.get_mut, writeMem,
      ha, hm]

/-- C7 witness: registering address 1 holding the integer 0, then writing the
incremented value 1 through the handle, makes get return 1. -/
theorem c7_mutation_observed_witness :
    (GlobalMut.try_get_mut (GlobalMut.set CellState.uninit 1)).2 = some 1
      ∧ (GlobalMut.get_mut (GlobalMut.set CellState.uninit 1)).2 = Except.ok 1
      ∧ (GlobalMut.try_get (GlobalMut.set CellState.uninit 1)
            (fun n => if n = 1 then some (0 : Int) else none)).2 = some (0 : Int)
      ∧ (GlobalMut.try_get (GlobalMut.set CellState.uninit 1)
            (writeMem (fun n => if n = 1 then some (0 : Int) else none) 1
              (0 + 1))).2 = some ((0 : Int) + 1)
      ∧ (GlobalMut.get (GlobalMut.set CellState.uninit 1)
            (writeMem (fun n => if n = 1 then some (0 : Int) else none) 1
              (0 + 1))).2 = Except.ok ((0 : Int) + 1) :=
  c7_mutation_observed CellState.uninit 1 (0 : Int) ((0 : Int) + 1)
    (fun n => if n = 1 then some (0 : Int) else none) (by decide) rfl

/-- C8 counterexample: the first access through try_get on a cell whose
OnceCell is untouched leaves the cell in the pre-initialization state — the
claimed lazy transition to Empty does not happen on the read path. -/
theorem c8_reader_no_init_counterexample :
    (GlobalRef.try_get CellState.uninit (fun _ => (none : Option Int))).1
        = CellState.uninit
      ∧ CellState.uninit.isInit = false := by
  exact ⟨rfl, rfl⟩

/-- C8 (amended): set, clear and with lazily create the synchronization
primitive on first use (the resulting state is always initialized, for either
body outcome of with), but the accessors get, try_get, get_mut and
try_get_mut do not: on a cell whose OnceCell is untouched they return
absence or failure and leave the cell untouched.  Both variants. -/
theorem c8_lazy_init_amended {T R : Type} (s : CellState) (a : Nat) (r : R)
    (e : String) (mem : Nat → Option T) :
    (GlobalRef.set s a).isInit = true
      ∧ (GlobalRef.clear s).isInit = true
      ∧ ((GlobalRef.with_ s a (Except.ok r)).1).isInit = true
      ∧ ((GlobalRef.with_ s a (Except.error e : Except String R)).1).isInit
          = true
      ∧ (GlobalRef.try_get CellState.uninit mem).1 = CellState.uninit
      ∧ (GlobalRef.get CellState.uninit mem).1 = CellState.uninit
      ∧ (GlobalMut.set s a).isInit = true
      ∧ (GlobalMut.clear s).isInit = true
      ∧ ((GlobalMut.with_ s a (Except.ok r)).1).isInit = true
      ∧ ((GlobalMut.with_ s a (Except.error e : Except String R)).1).isInit
          = true
      ∧ (GlobalMut.try_get CellState.uninit mem).1 = CellState.uninit
      ∧ (GlobalMut.get CellState.uninit mem).1 = CellState.uninit
      ∧ (GlobalMut.try_get_mut CellState.uninit).1 = CellState.uninit
      ∧ (GlobalMut.get_mut CellState.uninit).1 = CellState.uninit := by
  cases s <;>
    simp [GlobalRef.set, GlobalRef.clear, GlobalRef.get_or_init,
      GlobalRef.with_, GlobalRef.try_get, GlobalRef.get,
      GlobalMut.set, GlobalMut.clear, GlobalMut.get_or_init,
      GlobalMut.with_, GlobalMut.try_get, GlobalMut.get,
      GlobalMut.try_get_mut, GlobalMut.get_mut, CellState.isInit]

/-- C9: no read operation mutates the cell: for every state, the state after
get, try_get, get_mut and try_get_mut equals the state before, on both
variants. -/
theorem c9_readers_frame {T : Type} (s : CellState) (mem : Nat → Option T) :
    (GlobalRef.try_get s mem).1 = s
      ∧ (GlobalRef.get s mem).1 = s
      ∧ (GlobalMut.try_get s mem).1 = s
      ∧ (GlobalMut.get s mem).1 = s
      ∧ (GlobalMut.try_get_mut s).1 = s
      ∧ (GlobalMut.get_mut s).1 = s := by
  cases s with
  | uninit => exact ⟨rfl, rfl, rfl, rfl, rfl, rfl⟩
  | empty => exact ⟨rfl, rfl, rfl, rfl, rfl, rfl⟩
  | registered p =>
    cases hmp : mem p <;> by_cases hp : p = 0 <;>
      simp [GlobalRef.try_get, GlobalRef.get, GlobalMut.try_get, GlobalMut.get,
        GlobalMut.try_get_mut, GlobalMut.get_mut, hp, hmp]

/-- C10: the Debug output of a cell is the constant variant name, identical
for any two states of the same variant, so formatting reveals nothing about
the slot's contents. -/
theorem c10_debug_constant (s1 s2 t1 t2 : CellState) :
    GlobalRef.debug_fmt s1 = GlobalRef.debug_fmt s2
      ∧ GlobalRef.debug_fmt s1 = "GlobalRef"
      ∧ GlobalMut.debug_fmt t1 = GlobalMut.debug_fmt t2
      ∧ GlobalMut.debug_fmt t1 = "GlobalMut" :=
  ⟨rfl, rfl, rfl, rfl⟩
